import Mathlib

/-!
Shallow embedding of the `fake` server engine of sacloud/phy-api-go
(`fake/server.go`-style operations over an in-memory record store), together
with theorems checking the natural-language specification against it.

Conventions of the embedding:
* Go string-typed enumerations (`BondingType`, power statuses, lock status,
  internet types, modes) are embedded as `String`, with the named constants
  defined below; the Go zero value of such a type is the empty string.
* Pointer-valued optional fields become `Option`; a nil slice becomes `[]`.
* The engine is passed and returned explicitly.  Mutations that Go performs
  in place through pointers obtained from the store are realised by writing
  the updated record back at the position of the first record with the same
  identifier (`replaceFirst`), which coincides with in-place update of the
  record found by the lookup helpers.
* A `go`-launched background task becomes a `BgTask` value appended to the
  engine's `pending` list; `runTask` executes such a task's body.  `runTask`
  also reports the list of store-lock acquisitions the task performed.
* A Go panic is a distinct `AssignOutcome.panicked` result, not an error.
-/

namespace PhyFake

/-- Error kinds of the fake engine's `NewError` (not-found / conflict /
invalid-request taxonomy). -/
inductive ErrorType
  | notFound
  | conflict
  | invalidRequest
deriving DecidableEq, Repr

/-- Typed error carrying the resource kind and identifier, as built by
`NewError(errorType, resource, ident, formatArgs...)`; `detail` holds the
formatted trailing message (empty when none was given). -/
structure ApiError where
  errorType : ErrorType
  resource : String
  ident : String
  detail : String
deriving DecidableEq, Repr

/-- Embedding of `NewError`. -/
def NewError (t : ErrorType) (resource : String) (ident : String)
    (detail : String) : ApiError :=
  { errorType := t, resource := resource, ident := ident, detail := detail }

/-- `openapi.OsImage` (only the identifier is consulted by the engine). -/
structure OsImage where
  osImageId : String
deriving DecidableEq, Repr

/-- `openapi.AttachedDedicatedSubnet`. -/
structure AttachedDedicatedSubnet where
  dedicatedSubnetId : String
  nickname : String
deriving DecidableEq, Repr

/-- `openapi.Internet`. -/
structure Internet where
  dedicatedSubnet : Option AttachedDedicatedSubnet
  networkAddress : String
  prefixLength : Nat
  subnetType : String
deriving DecidableEq, Repr

/-- `openapi.AttachedPrivateNetwork`. -/
structure AttachedPrivateNetwork where
  nickname : String
  privateNetworkId : String
deriving DecidableEq, Repr

/-- `openapi.InterfacePort`. -/
structure InterfacePort where
  enabled : Bool
  nickname : String
  portChannelId : Nat
  portId : Nat
  internet : Option Internet
  mode : Option String
  privateNetworks : List AttachedPrivateNetwork
  globalBandwidthMbps : Option Nat
  localBandwidthMbps : Option Nat
deriving DecidableEq, Repr

/-- `openapi.PortChannel` (fields consulted by the engine). -/
structure PortChannel where
  portChannelId : Nat
  linkSpeedType : String
  ports : List Nat
deriving DecidableEq, Repr

/-- `openapi.CachedPowerStatus`; `stored` is the engine clock value at the
time the snapshot was taken (stands in for `time.Now()`). -/
structure CachedPowerStatus where
  status : String
  stored : Nat
deriving DecidableEq, Repr

/-- `openapi.Server` (fields consulted by the engine). -/
structure OpenapiServer where
  serverId : String
  lockStatus : Option String
  cachedPowerStatus : Option CachedPowerStatus
  ports : List InterfacePort
  portChannels : List PortChannel
deriving DecidableEq, Repr

/-- `openapi.ServerPowerStatus`.  These records live in a small explicit heap
(`Engine.psHeap`), because the Go engine stores and returns a pointer to the
record (`s.PowerStatus`), and claims about clone isolation depend on whether
that pointer aliases the store. -/
structure ServerPowerStatus where
  status : String
deriving DecidableEq, Repr

/-- `openapi.RaidStatus` (opaque payload; modelled at value level). -/
structure RaidStatus where
  overallStatus : String
deriving DecidableEq, Repr

/-- The fake `Server` record owned by the engine: the openapi server payload
plus installable images, a pointer (heap address) to the live power status,
and the RAID snapshot. -/
structure ServerData where
  server : OpenapiServer
  osImages : List OsImage
  powerStatus : Option Nat
  raidStatus : Option RaidStatus
deriving DecidableEq, Repr

/-- `openapi.DedicatedSubnet` catalog entry (fields consulted). -/
structure Ipv4 where
  networkAddress : String
  prefixLength : Nat
deriving DecidableEq, Repr

/-- Service information carrying a nickname. -/
structure ServiceInfo where
  nickname : String
deriving DecidableEq, Repr

/-- Read-only dedicated-subnet catalog entry. -/
structure DedicatedSubnet where
  dedicatedSubnetId : String
  ipv4 : Ipv4
  service : ServiceInfo
deriving DecidableEq, Repr

/-- Read-only private-network catalog entry. -/
structure PrivateNetwork where
  privateNetworkId : String
  service : ServiceInfo
deriving DecidableEq, Repr

/-- A background task launched with `go engine.startUpdateAction(...)`.
The power-control task carries the two status strings computed synchronously
before the `go` statement. -/
inductive BgTask
  | osInstallStart (serverId : String)
  | osInstallFinish (serverId : String)
  | powerControl (serverId : String) (powerStates : String)
      (cachedPowerStatus : String)
deriving DecidableEq, Repr

/-- The engine: record store, read-only catalogs, the id allocator counter,
the heap of `ServerPowerStatus` records with its allocation cursor, a logical
clock standing in for `time.Now()`, and the launched-but-not-yet-run
background tasks. -/
structure Engine where
  servers : List ServerData
  dedicatedSubnets : List DedicatedSubnet
  privateNetworks : List PrivateNetwork
  generatedId : Nat
  psHeap : Nat → ServerPowerStatus
  psNext : Nat
  clock : Nat
  pending : List BgTask

/-- Replace the first element satisfying `p` (the write-back of a record
looked up by identifier: Go mutates that record in place). -/
def replaceFirst (p : α → Bool) (nv : α) : List α → List α
  | [] => []
  | x :: xs => if p x then nv :: xs else x :: replaceFirst p nv xs

/-- `engine.getServerById`: scan the record collection for the server whose
identifier matches. -/
def getServerById (e : Engine) (serverId : String) : Option ServerData :=
  e.servers.find? (fun s => s.server.serverId == serverId)

/-- Write an updated server record back over the first record with the given
identifier; this realises Go's in-place mutation of the record returned by
`getServerById`. -/
def updateServer (e : Engine) (serverId : String) (ns : ServerData) : Engine :=
  { e with servers :=
      replaceFirst (fun s => s.server.serverId == serverId) ns e.servers }

/-- Modelled from the spec: the Identifier Allocator (`engine.nextId`), which
is not under `src/`; §2 "issues process-unique monotonically increasing
integer identifiers for newly created sub-resources". -/
def nextId (e : Engine) : Nat × Engine :=
  (e.generatedId + 1, { e with generatedId := e.generatedId + 1 })

/-- Modelled from the spec: `Server.getPortById`, which is not under `src/`;
§4.1 "Lookup-by-identifier scans the record collection and returns either the
internal record (for further mutation under the already-held lock) or not
found". -/
def getPortById (s : ServerData) (portId : Nat) :
    Except ApiError InterfacePort :=
  match s.server.ports.find? (fun p => p.portId == portId) with
  | some p => Except.ok p
  | none => Except.error (NewError ErrorType.notFound "port" (toString portId) "")

/-- Modelled from the spec: `Server.getPortChannelById`, which is not under
`src/`; same §4.1 lookup contract as `getPortById`. -/
def getPortChannelById (s : ServerData) (portChannelId : Nat) :
    Except ApiError PortChannel :=
  match s.server.portChannels.find? (fun c => c.portChannelId == portChannelId) with
  | some c => Except.ok c
  | none =>
      Except.error (NewError ErrorType.notFound "port-channel" (toString portChannelId) "")

/-- Modelled from the spec: `Server.updatePort`, which is not under `src/`;
§4.3 "Every mutation of a port ... must, after mutating, propagate the change
back through the owning server's stored collections", the updated port taking
the place of the record the lookup returned. -/
def updatePort (s : ServerData) (port : InterfacePort) : ServerData :=
  { s with server :=
      { s.server with ports :=
          replaceFirst (fun p => p.portId == port.portId) port s.server.ports } }

/-- Modelled from the spec: `Server.updatePortChannel`, which is not under
`src/`; same §4.3 propagation contract as `updatePort`. -/
def updatePortChannel (s : ServerData) (pc : PortChannel) : ServerData :=
  { s with server :=
      { s.server with portChannels :=
          replaceFirst (fun c => c.portChannelId == pc.portChannelId) pc s.server.portChannels } }

/-- Modelled from the spec: `engine.getDedicatedSubnetById` (read-only catalog
lookup, §3 "looked up by identifier during network assignment"). -/
def getDedicatedSubnetById (e : Engine) (dsid : String) :
    Option DedicatedSubnet :=
  e.dedicatedSubnets.find? (fun s => s.dedicatedSubnetId == dsid)

/-- Modelled from the spec: `engine.getPrivateNetworkById` (read-only catalog
lookup, §3). -/
def getPrivateNetworkById (e : Engine) (pnid : String) :
    Option PrivateNetwork :=
  e.privateNetworks.find? (fun n => n.privateNetworkId == pnid)

/-- `openapi.ServerLockStatusOsInstall`. -/
def ServerLockStatusOsInstall : String := "os_install"

/-- `openapi.ServerPowerStatusStatusOn`. -/
def ServerPowerStatusStatusOn : String := "on"

/-- `openapi.ServerPowerStatusStatusOff`. -/
def ServerPowerStatusStatusOff : String := "off"

/-- `openapi.CachedPowerStatusStatusOn`. -/
def CachedPowerStatusStatusOn : String := "on"

/-- `openapi.CachedPowerStatusStatusOff`. -/
def CachedPowerStatusStatusOff : String := "off"

/-- `openapi.BondingTypeLacp`. -/
def BondingTypeLacp : String := "lacp"

/-- `openapi.BondingTypeStatic`. -/
def BondingTypeStatic : String := "static"

/-- `openapi.BondingTypeSingle`. -/
def BondingTypeSingle : String := "single"

/-- `openapi.AssignNetworkParameterInternetTypeCommonSubnet`. -/
def AssignNetworkParameterInternetTypeCommonSubnet : String := "common-subnet"

/-- `openapi.AssignNetworkParameterInternetTypeDedicatedSubnet`. -/
def AssignNetworkParameterInternetTypeDedicatedSubnet : String := "dedicated-subnet"

/-- `openapi.InternetSubnetTypeCommonSubnet`. -/
def InternetSubnetTypeCommonSubnet : String := "common-subnet"

/-- `openapi.InternetSubnetTypeDedicatedSubnet`. -/
def InternetSubnetTypeDedicatedSubnet : String := "dedicated-subnet"

/-- `openapi.AssignNetworkParameterModeAccess`. -/
def AssignNetworkParameterModeAccess : String := "access"

/-- `openapi.AssignNetworkParameterModeTrunk`. -/
def AssignNetworkParameterModeTrunk : String := "trunk"

/-- `openapi.InterfacePortModeAccess`. -/
def InterfacePortModeAccess : String := "access"

/-- `openapi.InterfacePortModeTrunk`. -/
def InterfacePortModeTrunk : String := "trunk"

/-- `openapi.PaginateMeta`. -/
structure PaginateMeta where
  count : Nat
deriving DecidableEq, Repr

/-- `openapi.Servers` (list-servers response body). -/
structure Servers where
  meta : PaginateMeta
  servers : List OpenapiServer
deriving DecidableEq, Repr

/-- `engine.servers()`: convert the stored records to `openapi.Server` values
(Go copies each struct shallowly with `*s.Server`). -/
def serversList (e : Engine) : List OpenapiServer :=
  e.servers.map (fun s => s.server)

/-- `ListServers` (GET /servers/): all server snapshots plus count. -/
def ListServers (e : Engine) : Except ApiError Servers :=
  Except.ok { meta := { count := e.servers.length }, servers := serversList e }

/-- `ReadServer` (GET /servers/server_id/): `deepcopy.Copy` hands the caller a
deep structural copy of the stored `openapi.Server`, embedded here as the pure
value of the record. -/
def ReadServer (e : Engine) (serverId : String) : Except ApiError OpenapiServer :=
  match getServerById e serverId with
  | some s => Except.ok s.server
  | none => Except.error (NewError ErrorType.notFound "server" serverId "")

/-- `ListOSImages` (GET /servers/server_id/os_images/): deep copy of the image
list. -/
def ListOSImages (e : Engine) (serverId : String) :
    Except ApiError (List OsImage) :=
  match getServerById e serverId with
  | some s => Except.ok s.osImages
  | none => Except.error (NewError ErrorType.notFound "server" serverId "")

/-- `engine.startOSInstall`: `go engine.startUpdateAction(...)` launches the
OS-install start task; nothing else happens before the initiating operation
returns — in particular the lock status is not touched here. -/
def startOSInstall (e : Engine) (serverId : String) : Engine :=
  { e with pending := e.pending ++ [BgTask.osInstallStart serverId] }

/-- `openapi.OsInstallParameter` (fields consulted). -/
structure OsInstallParameter where
  osImageId : String
deriving DecidableEq, Repr

/-- `OSInstall` (POST /servers/server_id/os_install/). -/
def OSInstall (e : Engine) (serverId : String) (params : OsInstallParameter) :
    Except ApiError Unit × Engine :=
  match getServerById e serverId with
  | some s =>
    if s.server.lockStatus.isSome then
      (Except.error (NewError ErrorType.conflict "server" serverId ""), e)
    else if s.osImages.any (fun image => image.osImageId == params.osImageId) then
      (Except.ok (), startOSInstall e serverId)
    else
      (Except.error (NewError ErrorType.notFound "os-image" params.osImageId
        ("server[" ++ serverId ++ "]")), e)
  | none => (Except.error (NewError ErrorType.notFound "server" serverId ""), e)

/-- `ReadServerPortChannel` (GET .../port_channels/port_channel_id/). -/
def ReadServerPortChannel (e : Engine) (serverId : String)
    (portChannelId : Nat) : Except ApiError PortChannel :=
  match getServerById e serverId with
  | some s => getPortChannelById s portChannelId
  | none => Except.error (NewError ErrorType.notFound "server" serverId "")

/-- `openapi.ConfigureBondingParameter`. -/
structure ConfigureBondingParameter where
  bondingType : String
  portNicknames : Option (List String)
deriving DecidableEq, Repr

/-- An `openapi.InterfacePort` struct literal as built inside
`ServerConfigureBonding`: enabled, named, tagged with the owning channel and a
freshly allocated identifier; every other field is the Go zero value. -/
def newBondedPort (portChannelId : Nat) (portId : Nat) (name : String) :
    InterfacePort :=
  { enabled := true, nickname := name, portChannelId := portChannelId,
    portId := portId, internet := none, mode := none, privateNetworks := [],
    globalBandwidthMbps := none, localBandwidthMbps := none }

/-- Tail of `ServerConfigureBonding`: `s.Server.Ports = ports`,
`portChannel.Ports = portIds`, `s.updatePortChannel(portChannel)`, and the
mutated channel is returned. -/
def applyBondingResult (e : Engine) (serverId : String) (s : ServerData)
    (portChannel : PortChannel) (ports : List InterfacePort)
    (portIds : List Nat) : Except ApiError PortChannel × Engine :=
  let newPc := { portChannel with ports := portIds }
  let ns := updatePortChannel { s with server := { s.server with ports := ports } } newPc
  (Except.ok newPc, updateServer e serverId ns)

/-- The lacp/static arm of the bonding switch: one port. -/
def bondingCreateOne (e : Engine) (serverId : String) (s : ServerData)
    (portChannel : PortChannel) (name : String) :
    Except ApiError PortChannel × Engine :=
  let r := nextId e
  let port := newBondedPort portChannel.portChannelId r.1 name
  applyBondingResult r.2 serverId s portChannel [port] [r.1]

/-- The single arm of the bonding switch: two ports, allocated in order. -/
def bondingCreateTwo (e : Engine) (serverId : String) (s : ServerData)
    (portChannel : PortChannel) (names : List String) :
    Except ApiError PortChannel × Engine :=
  let r1 := nextId e
  let r2 := nextId r1.2
  let port1 := newBondedPort portChannel.portChannelId r1.1 (names.headD "")
  let port2 := newBondedPort portChannel.portChannelId r2.1 (names.getD 1 "")
  applyBondingResult r2.2 serverId s portChannel [port1, port2] [r1.1, r2.1]

/-- `ServerConfigureBonding` (POST .../configure_bonding/): replaces the
server's whole port list and the channel's port-identifier list according to
the bonding type; processed synchronously under the write lock, the channel's
own Locked marker untouched. -/
def ServerConfigureBonding (e : Engine) (serverId : String)
    (portChannelId : Nat) (params : ConfigureBondingParameter) :
    Except ApiError PortChannel × Engine :=
  match getServerById e serverId with
  | none => (Except.error (NewError ErrorType.notFound "server" serverId ""), e)
  | some s =>
    match getPortChannelById s portChannelId with
    | Except.error err => (Except.error err, e)
    | Except.ok portChannel =>
      if params.bondingType == BondingTypeLacp || params.bondingType == BondingTypeStatic then
        match params.portNicknames with
        | some names =>
          if names.length != 1 then
            (Except.error (NewError ErrorType.invalidRequest "port-channel"
              (toString portChannelId) "invalid PortNicknames"), e)
          else
            bondingCreateOne e serverId s portChannel
              (if names.headD "" != "" then names.headD "" else portChannel.linkSpeedType)
        | none => bondingCreateOne e serverId s portChannel portChannel.linkSpeedType
      else if params.bondingType == BondingTypeSingle then
        match params.portNicknames with
        | some names =>
          if names.length != 2 then
            (Except.error (NewError ErrorType.invalidRequest "port-channel"
              (toString portChannelId) "invalid PortNicknames"), e)
          else
            bondingCreateTwo e serverId s portChannel names
        | none =>
          bondingCreateTwo e serverId s portChannel
            [portChannel.linkSpeedType ++ " 1", portChannel.linkSpeedType ++ " 2"]
      else
        applyBondingResult e serverId s portChannel [] []

/-- `ReadServerPort` (GET .../ports/port_id/). -/
def ReadServerPort (e : Engine) (serverId : String) (portId : Nat) :
    Except ApiError InterfacePort :=
  match getServerById e serverId with
  | some s => getPortById s portId
  | none => Except.error (NewError ErrorType.notFound "server" serverId "")

/-- `openapi.UpdateServerPortParameter`. -/
structure UpdateServerPortParameter where
  nickname : String
deriving DecidableEq, Repr

/-- `UpdateServerPort` (PATCH .../ports/port_id/): rename the port. -/
def UpdateServerPort (e : Engine) (serverId : String) (portId : Nat)
    (params : UpdateServerPortParameter) :
    Except ApiError InterfacePort × Engine :=
  match getServerById e serverId with
  | some s =>
    match getPortById s portId with
    | Except.error err => (Except.error err, e)
    | Except.ok port =>
      let np := { port with nickname := params.nickname }
      (Except.ok np, updateServer e serverId (updatePort s np))
  | none => (Except.error (NewError ErrorType.notFound "server" serverId ""), e)

/-- `openapi.AssignNetworkParameter`.  `dedicatedSubnetId` and
`privateNetworkIds` are pointers in Go (`none` = nil); `mode` is a plain
string-typed enum whose zero value is the empty string. -/
structure AssignNetworkParameter where
  internetType : Option String
  dedicatedSubnetId : Option String
  mode : String
  privateNetworkIds : Option (List String)
deriving DecidableEq, Repr

/-- Result of `ServerAssignNetwork`: Go can return the updated port, return a
typed error, or panic (nil-pointer dereference / `panic(fmt.Errorf(...))`). -/
inductive AssignOutcome
  | ok (port : InterfacePort)
  | err (er : ApiError)
  | panicked (msg : String)
deriving DecidableEq, Repr

/-- The unconditional first step of `ServerAssignNetwork`: clear the port's
internet attachment, mode, private networks and both bandwidth fields. -/
def resetNetworkFields (port : InterfacePort) : InterfacePort :=
  { port with
    internet := none, mode := none, privateNetworks := [],
    globalBandwidthMbps := none, localBandwidthMbps := none }

/-- The fixed shared-subnet descriptor built for internet type common-subnet
(TODO comment in the source notes it should live elsewhere). -/
def commonSubnetInternet : Internet :=
  { dedicatedSubnet := none
    networkAddress := "203.0.113.0"
    prefixLength := 24
    subnetType := InternetSubnetTypeCommonSubnet }

/-- The descriptor derived from a catalog dedicated subnet. -/
def dedicatedSubnetInternet (subnet : DedicatedSubnet) : Internet :=
  { dedicatedSubnet := some { dedicatedSubnetId := subnet.dedicatedSubnetId,
                              nickname := subnet.service.nickname }
    networkAddress := subnet.ipv4.networkAddress
    prefixLength := subnet.ipv4.prefixLength
    subnetType := InternetSubnetTypeDedicatedSubnet }

/-- Intermediate result of the internet-type switch inside
`ServerAssignNetwork`: proceed with a descriptor, return an error, or panic;
the port carried along reflects the in-place mutations performed so far. -/
inductive InternetStage
  | proceed (internet : Option Internet) (port : InterfacePort)
  | fail (er : ApiError) (port : InterfacePort)
  | panicked (msg : String) (port : InterfacePort)
deriving DecidableEq, Repr

/-- The detail string rendered for the unknown-dedicated-subnet error.  The
source formats with `"invalid dedicated subnet id: %s", params.DedicatedSubnetId`
— the `*string` pointer, not the dereferenced identifier used on the line
above it.  Go's `fmt` does not dereference a `*string` for `%s`; it emits the
bad-verb form `%!s(*string=0x…)` carrying only the pointer's address.  The
address is runtime memory layout and is abstracted to the fixed placeholder
`0xADDR`; what the embedding preserves (and what matters for the claims) is
that the rendered detail is one and the same string for every identifier and
never contains the identifier text. -/
def invalidDedicatedSubnetIdDetail : String :=
  "invalid dedicated subnet id: %!s(*string=0xADDR)"

/-- The `params.InternetType` switch of `ServerAssignNetwork`.  With internet
type dedicated-subnet the code dereferences `*params.DedicatedSubnetId`
before any validation, so a nil identifier is a panic, and an identifier
absent from the catalog is an invalid-request error (whose formatted detail
is the pointer rendering `invalidDedicatedSubnetIdDetail`, independent of the
identifier); an unrecognized internet type is
`panic(fmt.Errorf("invalid InternetType: ..."))`. -/
def assignInternet (e : Engine) (port : InterfacePort)
    (params : AssignNetworkParameter) : InternetStage :=
  match params.internetType with
  | none => InternetStage.proceed none port
  | some t =>
    if t == AssignNetworkParameterInternetTypeCommonSubnet then
      InternetStage.proceed (some commonSubnetInternet)
        { port with globalBandwidthMbps := some 100 }
    else if t == AssignNetworkParameterInternetTypeDedicatedSubnet then
      match params.dedicatedSubnetId with
      | none =>
        InternetStage.panicked
          "runtime error: invalid memory address or nil pointer dereference" port
      | some dsid =>
        match getDedicatedSubnetById e dsid with
        | none =>
          InternetStage.fail (NewError ErrorType.invalidRequest "port"
            (toString port.portId) invalidDedicatedSubnetIdDetail) port
        | some subnet =>
          InternetStage.proceed (some (dedicatedSubnetInternet subnet))
            { port with globalBandwidthMbps := some 500 }
    else
      InternetStage.panicked "invalid InternetType" port

/-- The `params.Mode` switch of `ServerAssignNetwork`: access and trunk are
applied, any other value leaves the (already reset) mode untouched. -/
def assignMode (port : InterfacePort) (mode : String) : InterfacePort :=
  if mode == AssignNetworkParameterModeAccess then
    { port with mode := some InterfacePortModeAccess }
  else if mode == AssignNetworkParameterModeTrunk then
    { port with mode := some InterfacePortModeTrunk }
  else
    port

/-- The private-network loop of `ServerAssignNetwork`: attachments accumulate
in order; the first unknown identifier stops the loop with an invalid-request
error, the attachments appended so far remaining on the port (in-place
mutation). -/
def assignPrivateNetworksLoop (e : Engine) (port : InterfacePort) :
    List String → Option ApiError × InterfacePort
  | [] => (none, port)
  | id :: rest =>
    match getPrivateNetworkById e id with
    | none =>
      (some (NewError ErrorType.invalidRequest "port" (toString port.portId)
        ("invalid private network id: " ++ id)), port)
    | some pn =>
      assignPrivateNetworksLoop e
        { port with privateNetworks := port.privateNetworks ++
            [{ nickname := pn.service.nickname,
               privateNetworkId := pn.privateNetworkId }] } rest

/-- Write the current in-place state of a port back into the engine (the port
record obtained from the store is mutated through its pointer, so on every
exit path the store holds the port as mutated so far). -/
def persistPort (e : Engine) (serverId : String) (s : ServerData)
    (port : InterfacePort) : Engine :=
  updateServer e serverId (updatePort s port)

/-- `ServerAssignNetwork` (POST .../ports/port_id/assign_network/): reset the
port's network fields unconditionally, then reapply what the request
specifies. -/
def ServerAssignNetwork (e : Engine) (serverId : String) (portId : Nat)
    (params : AssignNetworkParameter) : AssignOutcome × Engine :=
  match getServerById e serverId with
  | none => (AssignOutcome.err (NewError ErrorType.notFound "server" serverId ""), e)
  | some s =>
    match getPortById s portId with
    | Except.error er => (AssignOutcome.err er, e)
    | Except.ok port0 =>
      let port1 := resetNetworkFields port0
      match assignInternet e port1 params with
      | InternetStage.panicked msg p =>
        (AssignOutcome.panicked msg, persistPort e serverId s p)
      | InternetStage.fail er p =>
        (AssignOutcome.err er, persistPort e serverId s p)
      | InternetStage.proceed internet p2 =>
        let p3 := assignMode { p2 with internet := internet } params.mode
        match params.privateNetworkIds with
        | none => (AssignOutcome.ok p3, persistPort e serverId s p3)
        | some ids =>
          let r := assignPrivateNetworksLoop e p3 ids
          match r.1 with
          | some er => (AssignOutcome.err er, persistPort e serverId s r.2)
          | none =>
            let p4 := { r.2 with localBandwidthMbps := some 1000 }
            (AssignOutcome.ok p4, persistPort e serverId s p4)

/-- `openapi.EnableServerPortParameter`. -/
structure EnableServerPortParameter where
  enable : Bool
deriving DecidableEq, Repr

/-- `EnableServerPort` (POST .../ports/port_id/enable/). -/
def EnableServerPort (e : Engine) (serverId : String) (portId : Nat)
    (params : EnableServerPortParameter) :
    Except ApiError InterfacePort × Engine :=
  match getServerById e serverId with
  | some s =>
    match getPortById s portId with
    | Except.error err => (Except.error err, e)
    | Except.ok port =>
      let np := { port with enabled := params.enable }
      (Except.ok np, updateServer e serverId (updatePort s np))
  | none => (Except.error (NewError ErrorType.notFound "server" serverId ""), e)

/-- `openapi.PowerControlParameter`. -/
structure PowerControlParameter where
  operation : String
deriving DecidableEq, Repr

/-- `engine.startServerPowerControl`: the operation string is mapped to the
target statuses synchronously (unrecognized operations leave the Go zero
values, empty strings), then the mutation task is launched with `go`. -/
def startServerPowerControl (e : Engine) (serverId : String)
    (params : PowerControlParameter) : Engine :=
  let states :=
    if params.operation == "on" || params.operation == "reset" then
      (ServerPowerStatusStatusOn, CachedPowerStatusStatusOn)
    else if params.operation == "soft" || params.operation == "off" then
      (ServerPowerStatusStatusOff, CachedPowerStatusStatusOff)
    else
      ("", "")
  { e with pending := e.pending ++ [BgTask.powerControl serverId states.1 states.2] }

/-- `ServerPowerControl` (POST /servers/server_id/power_control/). -/
def ServerPowerControl (e : Engine) (serverId : String)
    (params : PowerControlParameter) : Except ApiError Unit × Engine :=
  match getServerById e serverId with
  | some s =>
    if s.server.lockStatus.isSome then
      (Except.error (NewError ErrorType.conflict "server" serverId ""), e)
    else
      (Except.ok (), startServerPowerControl e serverId params)
  | none => (Except.error (NewError ErrorType.notFound "server" serverId ""), e)

/-- `ReadServerPowerStatus` (GET /servers/server_id/power_status/): the code
is `return s.PowerStatus, nil` — the stored pointer itself is handed to the
caller, with no copy; here that pointer is the heap address. -/
def ReadServerPowerStatus (e : Engine) (serverId : String) :
    Except ApiError (Option Nat) :=
  match getServerById e serverId with
  | some s => Except.ok s.powerStatus
  | none => Except.error (NewError ErrorType.notFound "server" serverId "")

/-- The value a caller observes by dereferencing the pointer obtained from
`ReadServerPowerStatus`. -/
def readPowerStatusValue (e : Engine) (serverId : String) :
    Except ApiError (Option ServerPowerStatus) :=
  match ReadServerPowerStatus e serverId with
  | Except.ok (some addr) => Except.ok (some (e.psHeap addr))
  | Except.ok none => Except.ok none
  | Except.error er => Except.error er

/-- A caller assignment through the pointer returned by
`ReadServerPowerStatus` (`*status = v` in Go): it writes the heap cell. -/
def writeServerPowerStatus (e : Engine) (addr : Nat) (v : ServerPowerStatus) :
    Engine :=
  { e with psHeap := fun a => if a == addr then v else e.psHeap a }

/-- `ReadRAIDStatus` (GET /servers/server_id/raid_status/); the refresh
parameter is ignored by the implementation.  The returned pointer is embedded
at value level (no claim exercises aliasing of this field). -/
def ReadRAIDStatus (e : Engine) (serverId : String) :
    Except ApiError (Option RaidStatus) :=
  match getServerById e serverId with
  | some s => Except.ok s.raidStatus
  | none => Except.error (NewError ErrorType.notFound "server" serverId "")

/-- A lock acquisition on the record store. -/
inductive LockKind
  | shared
  | exclusive
deriving DecidableEq, Repr

/-- Modelled from the spec: `engine.startUpdateAction`, which is not under
`src/`.  §9 "the reference behavior's background action mutates shared state
without acquiring the store's lock, a latent data race": the action body runs
directly, and the returned list — the lock acquisitions the task performed on
the record store — is empty. -/
def startUpdateAction (e : Engine) (action : Engine → Engine) :
    Engine × List LockKind :=
  (action e, [])

/-- The body of each background task, exactly as written in the spawned
closures.  The Go closures capture the `*Server` pointer; under the
state-passing embedding the record is reached through its identifier (servers
are never destroyed, §3, so the lookup always succeeds in reachable states).
The OS-install start task chains the finish task with a second `go`. -/
def taskBody : BgTask → Engine → Engine
  | BgTask.osInstallStart serverId, e =>
    let e1 :=
      match getServerById e serverId with
      | some s =>
        updateServer e serverId
          { s with server := { s.server with lockStatus := some ServerLockStatusOsInstall } }
      | none => e
    { e1 with pending := e1.pending ++ [BgTask.osInstallFinish serverId] }
  | BgTask.osInstallFinish serverId, e =>
    match getServerById e serverId with
    | some s =>
      updateServer e serverId
        { s with server := { s.server with lockStatus := none } }
    | none => e
  | BgTask.powerControl serverId powerStates cachedPowerStatus, e =>
    match getServerById e serverId with
    | some s =>
      let addr := e.psNext
      let u := updateServer e serverId
        { s with
          powerStatus := some addr
          server := { s.server with
                      cachedPowerStatus := some { status := cachedPowerStatus, stored := e.clock } } }
      { u with
        psHeap := fun a => if a == addr then { status := powerStates } else e.psHeap a
        psNext := e.psNext + 1
        clock := e.clock + 1 }
    | none => e

/-- Execution of a launched background task: the scheduler runs it through
`startUpdateAction`, and the second component records which store locks the
task acquired while mutating. -/
def runTask (t : BgTask) (e : Engine) : Engine × List LockKind :=
  startUpdateAction e (taskBody t)

/-- Ports of a server as stored in an engine (empty when the server is
absent); observation helper for theorems about stored state. -/
def serverPortsIn (e : Engine) (serverId : String) : List InterfacePort :=
  match getServerById e serverId with
  | some s => s.server.ports
  | none => []

/-- Port-identifier list of a stored port channel (empty when absent);
observation helper for theorems about stored state. -/
def channelPortsIn (e : Engine) (serverId : String) (portChannelId : Nat) :
    List Nat :=
  match getServerById e serverId with
  | some s =>
    match getPortChannelById s portChannelId with
    | Except.ok pc => pc.ports
    | Except.error _ => []
  | none => []

/-- Lock status of a stored server (defaults to `none` when the server is
absent); observation helper for theorems about stored state. -/
def lockStatusIn (e : Engine) (serverId : String) : Option String :=
  match getServerById e serverId with
  | some s => s.server.lockStatus
  | none => none

theorem find?_replaceFirst {α : Type} (p : α → Bool) (nv : α)
    (hnv : p nv = true) :
    ∀ (l : List α) (x : α), l.find? p = some x →
      (replaceFirst p nv l).find? p = some nv := by
  intro l
  induction l with
  | nil => intro x h; simp at h
  | cons a l ih =>
    intro x h
    by_cases hpa : p a = true
    · simp only [replaceFirst, if_pos hpa]
      exact List.find?_cons_of_pos _ hnv
    · simp only [replaceFirst, if_neg hpa]
      rw [List.find?_cons_of_neg _ hpa] at h
      rw [List.find?_cons_of_neg _ hpa]
      exact ih x h

theorem getServerById_updateServer (e : Engine) (serverId : String)
    (s ns : ServerData) (hs : getServerById e serverId = some s)
    (hid : ns.server.serverId = s.server.serverId) :
    getServerById (updateServer e serverId ns) serverId = some ns := by
  have hps := List.find?_some hs
  apply find?_replaceFirst
  · show (ns.server.serverId == serverId) = true
    rw [hid]; exact hps
  · exact hs

theorem getPortChannelById_updatePortChannel (s : ServerData)
    (portChannelId : Nat) (pc npc : PortChannel)
    (hpc : getPortChannelById s portChannelId = Except.ok pc)
    (hid : npc.portChannelId = pc.portChannelId) :
    getPortChannelById (updatePortChannel s npc) portChannelId =
      Except.ok npc := by
  unfold getPortChannelById at hpc ⊢
  cases hfind : s.server.portChannels.find? (fun c => c.portChannelId == portChannelId) with
  | none => rw [hfind] at hpc; exact absurd hpc (by simp)
  | some c =>
    rw [hfind] at hpc
    have hceq : c = pc := by injection hpc
    subst hceq
    have hbeq := List.find?_some hfind
    have hcid : c.portChannelId = portChannelId := by simpa using hbeq
    have hrepl := find?_replaceFirst (fun x => x.portChannelId == portChannelId) npc
      (by simp [hid, hcid]) s.server.portChannels c hfind
    unfold updatePortChannel
    simp only
    rw [hid, hcid, hrepl]

theorem getPortById_updatePort (s : ServerData) (portId : Nat)
    (p np : InterfacePort) (hp : getPortById s portId = Except.ok p)
    (hid : np.portId = p.portId) :
    getPortById (updatePort s np) portId = Except.ok np := by
  unfold getPortById at hp ⊢
  cases hfind : s.server.ports.find? (fun q => q.portId == portId) with
  | none => rw [hfind] at hp; exact absurd hp (by simp)
  | some q =>
    rw [hfind] at hp
    have hqeq : q = p := by injection hp
    subst hqeq
    have hbeq := List.find?_some hfind
    have hqid : q.portId = portId := by simpa using hbeq
    have hrepl := find?_replaceFirst (fun x => x.portId == portId) np
      (by simp [hid, hqid]) s.server.ports q hfind
    unfold updatePort
    simp only
    rw [hid, hqid, hrepl]

/-- A one-server fixture: unlocked server `server01` with one bonded port
(id 2) on channel 1, one installable image, a live power status stored in
heap cell 0, and one entry in each catalog. -/
def samplePort : InterfacePort :=
  { enabled := true, nickname := "port01", portChannelId := 1, portId := 2,
    internet := some commonSubnetInternet, mode := some InterfacePortModeAccess,
    privateNetworks := [], globalBandwidthMbps := some 100,
    localBandwidthMbps := none }

/-- Port channel of the fixture. -/
def samplePortChannel : PortChannel :=
  { portChannelId := 1, linkSpeedType := "1gbe", ports := [2] }

/-- Server record of the fixture. -/
def sampleServer : ServerData :=
  { server :=
      { serverId := "server01", lockStatus := none, cachedPowerStatus := none,
        ports := [samplePort], portChannels := [samplePortChannel] },
    osImages := [{ osImageId := "image01" }],
    powerStatus := some 0,
    raidStatus := some { overallStatus := "healthy" } }

/-- Engine fixture used by witnesses and counterexamples. -/
def sampleEngine : Engine :=
  { servers := [sampleServer]
    dedicatedSubnets := [{ dedicatedSubnetId := "subnet01"
                           ipv4 := { networkAddress := "198.51.100.0", prefixLength := 27 }
                           service := { nickname := "subnet-nick" } }]
    privateNetworks := [{ privateNetworkId := "net01"
                          service := { nickname := "net-nick" } }]
    generatedId := 100
    psHeap := fun a => if a == 0 then { status := "on" } else { status := "" }
    psNext := 1
    clock := 10
    pending := [] }

/-- The fixture server with an active OS-install lock. -/
def lockedServer : ServerData :=
  { sampleServer with server :=
      { sampleServer.server with lockStatus := some ServerLockStatusOsInstall } }

/-- Engine fixture whose only server is locked. -/
def lockedEngine : Engine :=
  { sampleEngine with servers := [lockedServer] }

theorem getServerById_set_pending (e : Engine) (p : List BgTask)
    (serverId : String) :
    getServerById { e with pending := p } serverId = getServerById e serverId :=
  rfl

theorem runTask_osInstallStart (e : Engine) (serverId : String)
    (s : ServerData) (hs : getServerById e serverId = some s) :
    (runTask (BgTask.osInstallStart serverId) e).1 =
      { updateServer e serverId
          { s with server := { s.server with lockStatus := some ServerLockStatusOsInstall } } with
        pending := e.pending ++ [BgTask.osInstallFinish serverId] } := by
  simp only [runTask, startUpdateAction, taskBody]
  rw [hs]
  rfl

theorem runTask_osInstallFinish (e : Engine) (serverId : String)
    (s : ServerData) (hs : getServerById e serverId = some s) :
    (runTask (BgTask.osInstallFinish serverId) e).1 =
      updateServer e serverId
        { s with server := { s.server with lockStatus := none } } := by
  simp only [runTask, startUpdateAction, taskBody]
  rw [hs]

/-- Claim C1 counterexample: on the fixture, `OSInstall` with a valid image on
the unlocked server returns success, yet the lock-status observed immediately
after the call returns is still absent, not installing — the busy marker was
not set synchronously (it is set only when the pending background task runs). -/
theorem C1_counterexample :
    (OSInstall sampleEngine "server01" { osImageId := "image01" }).1 = Except.ok () ∧
    lockStatusIn (OSInstall sampleEngine "server01" { osImageId := "image01" }).2 "server01" = none ∧
    (OSInstall sampleEngine "server01" { osImageId := "image01" }).2.pending =
      [BgTask.osInstallStart "server01"] := by
  refine ⟨rfl, rfl, rfl⟩

/-- Claim C1 (amended): `OSInstall` on an unlocked server with a valid image
returns success with the start task merely pending and the stored record
unchanged — the lock-status is still absent at the moment the operation
returns; the installing marker is set only when the launched background task
runs, which also chains the finish task; running the finish task clears the
lock-status back to absent. -/
theorem C1_os_install_lock_set_by_background_task
    (e : Engine) (serverId : String) (s : ServerData)
    (params : OsInstallParameter)
    (hs : getServerById e serverId = some s)
    (hlock : s.server.lockStatus = none)
    (himg : s.osImages.any (fun image => image.osImageId == params.osImageId) = true) :
    (OSInstall e serverId params).1 = Except.ok () ∧
    (OSInstall e serverId params).2.pending =
      e.pending ++ [BgTask.osInstallStart serverId] ∧
    getServerById (OSInstall e serverId params).2 serverId = some s ∧
    getServerById (runTask (BgTask.osInstallStart serverId) (OSInstall e serverId params).2).1 serverId =
      some { s with server := { s.server with lockStatus := some ServerLockStatusOsInstall } } ∧
    (runTask (BgTask.osInstallStart serverId) (OSInstall e serverId params).2).1.pending =
      e.pending ++ [BgTask.osInstallStart serverId, BgTask.osInstallFinish serverId] ∧
    getServerById (runTask (BgTask.osInstallFinish serverId)
        (runTask (BgTask.osInstallStart serverId) (OSInstall e serverId params).2).1).1 serverId =
      some { s with server := { s.server with lockStatus := none } } := by
  have hosi : OSInstall e serverId params = (Except.ok (), startOSInstall e serverId) := by
    simp [OSInstall, hs, hlock, himg]
  rw [hosi]
  have hge1 : getServerById (startOSInstall e serverId) serverId = some s := hs
  have hr1 := runTask_osInstallStart (startOSInstall e serverId) serverId s hge1
  have hns1 :
      getServerById (runTask (BgTask.osInstallStart serverId) (startOSInstall e serverId)).1 serverId =
        some { s with server := { s.server with lockStatus := some ServerLockStatusOsInstall } } := by
    rw [hr1, getServerById_set_pending]
    exact getServerById_updateServer (startOSInstall e serverId) serverId s _ hge1 rfl
  have hr2 := runTask_osInstallFinish
    (runTask (BgTask.osInstallStart serverId) (startOSInstall e serverId)).1 serverId _ hns1
  refine ⟨rfl, rfl, hge1, hns1, ?_, ?_⟩
  · rw [hr1]
    show (startOSInstall e serverId).pending ++ [BgTask.osInstallFinish serverId] =
      e.pending ++ [BgTask.osInstallStart serverId, BgTask.osInstallFinish serverId]
    simp [startOSInstall]
  · rw [hr2]
    exact getServerById_updateServer _ serverId _ _ hns1 rfl

/-- Claim C1 witness: the amended theorem applied to the fixture. -/
theorem C1_witness :
    getServerById sampleEngine "server01" = some sampleServer ∧
    sampleServer.server.lockStatus = none ∧
    sampleServer.osImages.any (fun image => image.osImageId == "image01") = true ∧
    ((OSInstall sampleEngine "server01" { osImageId := "image01" }).1 = Except.ok () ∧
     (OSInstall sampleEngine "server01" { osImageId := "image01" }).2.pending =
       sampleEngine.pending ++ [BgTask.osInstallStart "server01"] ∧
     getServerById (OSInstall sampleEngine "server01" { osImageId := "image01" }).2 "server01" =
       some sampleServer ∧
     getServerById (runTask (BgTask.osInstallStart "server01")
         (OSInstall sampleEngine "server01" { osImageId := "image01" }).2).1 "server01" =
       some { sampleServer with server :=
         { sampleServer.server with lockStatus := some ServerLockStatusOsInstall } } ∧
     (runTask (BgTask.osInstallStart "server01")
         (OSInstall sampleEngine "server01" { osImageId := "image01" }).2).1.pending =
       sampleEngine.pending ++ [BgTask.osInstallStart "server01", BgTask.osInstallFinish "server01"] ∧
     getServerById (runTask (BgTask.osInstallFinish "server01")
         (runTask (BgTask.osInstallStart "server01")
           (OSInstall sampleEngine "server01" { osImageId := "image01" }).2).1).1 "server01" =
       some { sampleServer with server :=
         { sampleServer.server with lockStatus := none } }) :=
  ⟨rfl, rfl, rfl,
    C1_os_install_lock_set_by_background_task sampleEngine "server01" sampleServer
      { osImageId := "image01" } rfl rfl rfl⟩

/-- Claim C2 counterexample: the OS-install start task, run against the
fixture, mutates the record store (it sets the lock-status and chains the
finish task) while acquiring no exclusive access at all — its lock-acquisition
trace does not contain the exclusive lock. -/
theorem C2_counterexample :
    lockStatusIn (runTask (BgTask.osInstallStart "server01") sampleEngine).1 "server01" =
      some ServerLockStatusOsInstall ∧
    lockStatusIn sampleEngine "server01" = none ∧
    LockKind.exclusive ∉ (runTask (BgTask.osInstallStart "server01") sampleEngine).2 := by
  refine ⟨rfl, rfl, ?_⟩
  intro h
  simp [runTask, startUpdateAction] at h

/-- Claim C2 (amended): no mutation performed by a background task acquires
any access to the Record Store — the scheduler runs every task body with an
empty lock-acquisition trace (the data race the spec documents in §9),
instead of acquiring exclusive access as a synchronous mutating operation
would. -/
theorem C2_background_tasks_bypass_lock (t : BgTask) (e : Engine) :
    (runTask t e).2 = [] :=
  rfl

/-- Claim C3: on a server whose lock-status is present, both `OSInstall` and
`ServerPowerControl` return the conflict error and hand back the engine
unchanged — no record is mutated and no background task is launched (the
pending queue is part of the engine state). -/
theorem C3_locked_server_conflict
    (e : Engine) (serverId : String) (s : ServerData)
    (params : OsInstallParameter) (pparams : PowerControlParameter)
    (hs : getServerById e serverId = some s)
    (hlock : s.server.lockStatus.isSome = true) :
    OSInstall e serverId params =
      (Except.error (NewError ErrorType.conflict "server" serverId ""), e) ∧
    ServerPowerControl e serverId pparams =
      (Except.error (NewError ErrorType.conflict "server" serverId ""), e) := by
  constructor
  · simp [OSInstall, hs, hlock]
  · simp [ServerPowerControl, hs, hlock]

/-- Claim C3 witness: the theorem applied to the locked fixture, for one
OS-install attempt and one power-control attempt. -/
theorem C3_witness :
    getServerById lockedEngine "server01" = some lockedServer ∧
    lockedServer.server.lockStatus.isSome = true ∧
    (OSInstall lockedEngine "server01" { osImageId := "image01" } =
       (Except.error (NewError ErrorType.conflict "server" "server01" ""), lockedEngine) ∧
     ServerPowerControl lockedEngine "server01" { operation := "on" } =
       (Except.error (NewError ErrorType.conflict "server" "server01" ""), lockedEngine)) :=
  ⟨rfl, rfl,
    C3_locked_server_conflict lockedEngine "server01" lockedServer
      { osImageId := "image01" } { operation := "on" } rfl rfl⟩

/-- Claim C4 counterexample: on the fixture, `ReadServerPowerStatus` hands the
caller the stored reference (heap cell 0) rather than a copy; the caller
mutates through it, and a subsequent read of the same resource observes the
mutated value (off instead of on) — so the returned value is not a deep
structural copy and mutating it changes what a subsequent read returns. -/
theorem C4_counterexample :
    ReadServerPowerStatus sampleEngine "server01" = Except.ok (some 0) ∧
    readPowerStatusValue sampleEngine "server01" =
      Except.ok (some { status := "on" }) ∧
    ReadServerPowerStatus
        (writeServerPowerStatus sampleEngine 0 { status := "off" }) "server01" =
      Except.ok (some 0) ∧
    readPowerStatusValue
        (writeServerPowerStatus sampleEngine 0 { status := "off" }) "server01" =
      Except.ok (some { status := "off" }) := by
  refine ⟨rfl, rfl, rfl, rfl⟩

/-- Claim C4 (amended): `ReadServer` does return a deep structural copy of the
stored record (the pure snapshot value), but `ReadServerPowerStatus` returns
the stored reference itself, so a caller mutation through the returned value
is observed by every subsequent read of that resource. -/
theorem C4_power_status_read_aliases_store
    (e : Engine) (serverId : String) (s : ServerData) (addr : Nat)
    (v : ServerPowerStatus)
    (hs : getServerById e serverId = some s)
    (haddr : s.powerStatus = some addr) :
    ReadServer e serverId = Except.ok s.server ∧
    ReadServerPowerStatus e serverId = Except.ok s.powerStatus ∧
    readPowerStatusValue (writeServerPowerStatus e addr v) serverId =
      Except.ok (some v) := by
  refine ⟨?_, ?_, ?_⟩
  · simp [ReadServer, hs]
  · simp [ReadServerPowerStatus, hs]
  · have hs2 : getServerById (writeServerPowerStatus e addr v) serverId = some s := hs
    unfold readPowerStatusValue ReadServerPowerStatus
    rw [hs2]
    dsimp only
    rw [haddr]
    dsimp only
    simp [writeServerPowerStatus]

/-- Claim C4 witness: the amended theorem applied to the fixture, writing the
off status through the reference returned for heap cell 0. -/
theorem C4_witness :
    getServerById sampleEngine "server01" = some sampleServer ∧
    sampleServer.powerStatus = some 0 ∧
    (ReadServer sampleEngine "server01" = Except.ok sampleServer.server ∧
     ReadServerPowerStatus sampleEngine "server01" = Except.ok sampleServer.powerStatus ∧
     readPowerStatusValue (writeServerPowerStatus sampleEngine 0 { status := "off" }) "server01" =
       Except.ok (some { status := "off" })) :=
  ⟨rfl, rfl,
    C4_power_status_read_aliases_store sampleEngine "server01" sampleServer 0
      { status := "off" } rfl rfl⟩

theorem applyBondingResult_state (e : Engine) (serverId : String)
    (portChannelId : Nat) (s : ServerData) (pc : PortChannel)
    (ports : List InterfacePort) (portIds : List Nat)
    (hs : getServerById e serverId = some s)
    (hpc : getPortChannelById s portChannelId = Except.ok pc) :
    (applyBondingResult e serverId s pc ports portIds).1 =
      Except.ok { pc with ports := portIds } ∧
    serverPortsIn (applyBondingResult e serverId s pc ports portIds).2 serverId = ports ∧
    channelPortsIn (applyBondingResult e serverId s pc ports portIds).2 serverId portChannelId =
      portIds := by
  unfold applyBondingResult
  dsimp only
  have hu := getServerById_updateServer e serverId s
    (updatePortChannel { s with server := { s.server with ports := ports } }
      { pc with ports := portIds }) hs rfl
  refine ⟨rfl, ?_, ?_⟩
  · unfold serverPortsIn
    rw [hu]
    rfl
  · unfold channelPortsIn
    rw [hu]
    dsimp only
    have hch := getPortChannelById_updatePortChannel
      { s with server := { s.server with ports := ports } } portChannelId pc
      { pc with ports := portIds } hpc rfl
    rw [hch]

theorem bondingCreateOne_spec (e : Engine) (serverId : String)
    (portChannelId : Nat) (s : ServerData) (pc : PortChannel) (name : String)
    (hs : getServerById e serverId = some s)
    (hpc : getPortChannelById s portChannelId = Except.ok pc) :
    (bondingCreateOne e serverId s pc name).1 =
      Except.ok { pc with ports := [e.generatedId + 1] } ∧
    serverPortsIn (bondingCreateOne e serverId s pc name).2 serverId =
      [newBondedPort pc.portChannelId (e.generatedId + 1) name] ∧
    channelPortsIn (bondingCreateOne e serverId s pc name).2 serverId portChannelId =
      [e.generatedId + 1] := by
  have hs2 : getServerById (nextId e).2 serverId = some s := hs
  exact applyBondingResult_state (nextId e).2 serverId portChannelId s pc
    [newBondedPort pc.portChannelId (e.generatedId + 1) name] [e.generatedId + 1] hs2 hpc

theorem bondingCreateTwo_spec (e : Engine) (serverId : String)
    (portChannelId : Nat) (s : ServerData) (pc : PortChannel)
    (names : List String)
    (hs : getServerById e serverId = some s)
    (hpc : getPortChannelById s portChannelId = Except.ok pc) :
    (bondingCreateTwo e serverId s pc names).1 =
      Except.ok { pc with ports := [e.generatedId + 1, e.generatedId + 2] } ∧
    serverPortsIn (bondingCreateTwo e serverId s pc names).2 serverId =
      [newBondedPort pc.portChannelId (e.generatedId + 1) (names.headD ""),
       newBondedPort pc.portChannelId (e.generatedId + 2) (names.getD 1 "")] ∧
    channelPortsIn (bondingCreateTwo e serverId s pc names).2 serverId portChannelId =
      [e.generatedId + 1, e.generatedId + 2] := by
  have hs2 : getServerById (nextId (nextId e).2).2 serverId = some s := hs
  exact applyBondingResult_state (nextId (nextId e).2).2 serverId portChannelId s pc
    [newBondedPort pc.portChannelId (e.generatedId + 1) (names.headD ""),
     newBondedPort pc.portChannelId (e.generatedId + 2) (names.getD 1 "")]
    [e.generatedId + 1, e.generatedId + 2] hs2 hpc

/-- Claim C5: bonding configuration on an existing server and channel.  With
bonding type lacp or static exactly one port is created; a supplied nickname
list of any length other than one is rejected as invalid-request; a supplied
empty-string nickname falls back to the channel's link-speed-type label (a
non-empty one is used as given).  With bonding type single exactly two ports
are created; a supplied nickname list of any length other than two is
rejected as invalid-request; absent nicknames default to the link-speed-type
label suffixed with 1 and 2. -/
theorem C5_configure_bonding_port_creation
    (e : Engine) (serverId : String) (portChannelId : Nat)
    (s : ServerData) (pc : PortChannel)
    (hs : getServerById e serverId = some s)
    (hpc : getPortChannelById s portChannelId = Except.ok pc) :
    (∀ bt names, (bt = BondingTypeLacp ∨ bt = BondingTypeStatic) →
      names.length ≠ 1 →
      ServerConfigureBonding e serverId portChannelId
          { bondingType := bt, portNicknames := some names } =
        (Except.error (NewError ErrorType.invalidRequest "port-channel"
          (toString portChannelId) "invalid PortNicknames"), e)) ∧
    (∀ bt, (bt = BondingTypeLacp ∨ bt = BondingTypeStatic) →
      (ServerConfigureBonding e serverId portChannelId
          { bondingType := bt, portNicknames := none }).1 =
        Except.ok { pc with ports := [e.generatedId + 1] } ∧
      serverPortsIn (ServerConfigureBonding e serverId portChannelId
          { bondingType := bt, portNicknames := none }).2 serverId =
        [newBondedPort pc.portChannelId (e.generatedId + 1) pc.linkSpeedType] ∧
      channelPortsIn (ServerConfigureBonding e serverId portChannelId
          { bondingType := bt, portNicknames := none }).2 serverId portChannelId =
        [e.generatedId + 1]) ∧
    (∀ bt, (bt = BondingTypeLacp ∨ bt = BondingTypeStatic) →
      serverPortsIn (ServerConfigureBonding e serverId portChannelId
          { bondingType := bt, portNicknames := some [""] }).2 serverId =
        [newBondedPort pc.portChannelId (e.generatedId + 1) pc.linkSpeedType]) ∧
    (∀ bt name, (bt = BondingTypeLacp ∨ bt = BondingTypeStatic) → name ≠ "" →
      serverPortsIn (ServerConfigureBonding e serverId portChannelId
          { bondingType := bt, portNicknames := some [name] }).2 serverId =
        [newBondedPort pc.portChannelId (e.generatedId + 1) name]) ∧
    (∀ names, names.length ≠ 2 →
      ServerConfigureBonding e serverId portChannelId
          { bondingType := BondingTypeSingle, portNicknames := some names } =
        (Except.error (NewError ErrorType.invalidRequest "port-channel"
          (toString portChannelId) "invalid PortNicknames"), e)) ∧
    ((ServerConfigureBonding e serverId portChannelId
        { bondingType := BondingTypeSingle, portNicknames := none }).1 =
      Except.ok { pc with ports := [e.generatedId + 1, e.generatedId + 2] } ∧
     serverPortsIn (ServerConfigureBonding e serverId portChannelId
        { bondingType := BondingTypeSingle, portNicknames := none }).2 serverId =
       [newBondedPort pc.portChannelId (e.generatedId + 1) (pc.linkSpeedType ++ " 1"),
        newBondedPort pc.portChannelId (e.generatedId + 2) (pc.linkSpeedType ++ " 2")] ∧
     channelPortsIn (ServerConfigureBonding e serverId portChannelId
        { bondingType := BondingTypeSingle, portNicknames := none }).2 serverId portChannelId =
       [e.generatedId + 1, e.generatedId + 2]) := by
  refine ⟨?_, ?_, ?_, ?_, ?_, ?_⟩
  · intro bt names hbt hlen
    rcases hbt with h | h <;> subst h <;>
      simp [ServerConfigureBonding, hs, hpc, BondingTypeLacp, BondingTypeStatic, hlen]
  · intro bt hbt
    rcases hbt with h | h <;> subst h <;>
      · have hres := bondingCreateOne_spec e serverId portChannelId s pc pc.linkSpeedType hs hpc
        simpa [ServerConfigureBonding, hs, hpc, BondingTypeLacp, BondingTypeStatic] using hres
  · intro bt hbt
    rcases hbt with h | h <;> subst h <;>
      · have hres := bondingCreateOne_spec e serverId portChannelId s pc pc.linkSpeedType hs hpc
        simpa [ServerConfigureBonding, hs, hpc, BondingTypeLacp, BondingTypeStatic] using hres.2.1
  · intro bt name hbt hname
    rcases hbt with h | h <;> subst h <;>
      · have hres := bondingCreateOne_spec e serverId portChannelId s pc name hs hpc
        simpa [ServerConfigureBonding, hs, hpc, BondingTypeLacp, BondingTypeStatic, hname]
          using hres.2.1
  · intro names hlen
    simp [ServerConfigureBonding, hs, hpc, BondingTypeLacp, BondingTypeStatic,
      BondingTypeSingle, hlen]
  · have hres := bondingCreateTwo_spec e serverId portChannelId s pc
      [pc.linkSpeedType ++ " 1", pc.linkSpeedType ++ " 2"] hs hpc
    simpa [ServerConfigureBonding, hs, hpc, BondingTypeLacp, BondingTypeStatic,
      BondingTypeSingle] using hres

/-- Claim C5 witness: the theorem applied to the fixture; a two-element
nickname list under lacp is rejected, no nicknames under lacp yield one port
labelled with the link-speed type, an empty-string nickname falls back to the
link-speed type, a one-element list under single is rejected, and no
nicknames under single yield the two default-labelled ports. -/
theorem C5_witness :
    getServerById sampleEngine "server01" = some sampleServer ∧
    getPortChannelById sampleServer 1 = Except.ok samplePortChannel ∧
    ServerConfigureBonding sampleEngine "server01" 1
        { bondingType := "lacp", portNicknames := some ["a", "b"] } =
      (Except.error (NewError ErrorType.invalidRequest "port-channel" "1"
        "invalid PortNicknames"), sampleEngine) ∧
    (ServerConfigureBonding sampleEngine "server01" 1
        { bondingType := "lacp", portNicknames := none }).1 =
      Except.ok { samplePortChannel with ports := [101] } ∧
    serverPortsIn (ServerConfigureBonding sampleEngine "server01" 1
        { bondingType := "lacp", portNicknames := none }).2 "server01" =
      [newBondedPort 1 101 "1gbe"] ∧
    serverPortsIn (ServerConfigureBonding sampleEngine "server01" 1
        { bondingType := "static", portNicknames := some [""] }).2 "server01" =
      [newBondedPort 1 101 "1gbe"] ∧
    ServerConfigureBonding sampleEngine "server01" 1
        { bondingType := "single", portNicknames := some ["x"] } =
      (Except.error (NewError ErrorType.invalidRequest "port-channel" "1"
        "invalid PortNicknames"), sampleEngine) ∧
    serverPortsIn (ServerConfigureBonding sampleEngine "server01" 1
        { bondingType := "single", portNicknames := none }).2 "server01" =
      [newBondedPort 1 101 "1gbe 1", newBondedPort 1 102 "1gbe 2"] := by
  have h := C5_configure_bonding_port_creation sampleEngine "server01" 1
    sampleServer samplePortChannel rfl rfl
  refine ⟨rfl, rfl, ?_, ?_, ?_, ?_, ?_, ?_⟩
  · exact h.1 "lacp" ["a", "b"] (Or.inl rfl) (by decide)
  · exact (h.2.1 "lacp" (Or.inl rfl)).1
  · exact (h.2.1 "lacp" (Or.inl rfl)).2.1
  · exact h.2.2.1 "static" (Or.inr rfl)
  · exact h.2.2.2.2.1 ["x"] (by decide)
  · exact h.2.2.2.2.2.2.1

/-- Claim C9: bonding configuration with an unrecognized bonding type still
succeeds (returns the channel with an empty port-identifier list and no
error) and leaves the server's port list and the channel's port-identifier
list empty: no ports are created. -/
theorem C9_unknown_bonding_type_creates_no_ports
    (e : Engine) (serverId : String) (portChannelId : Nat)
    (s : ServerData) (pc : PortChannel) (bt : String)
    (nicknames : Option (List String))
    (hs : getServerById e serverId = some s)
    (hpc : getPortChannelById s portChannelId = Except.ok pc)
    (hbt1 : bt ≠ BondingTypeLacp) (hbt2 : bt ≠ BondingTypeStatic)
    (hbt3 : bt ≠ BondingTypeSingle) :
    (ServerConfigureBonding e serverId portChannelId
        { bondingType := bt, portNicknames := nicknames }).1 =
      Except.ok { pc with ports := [] } ∧
    serverPortsIn (ServerConfigureBonding e serverId portChannelId
        { bondingType := bt, portNicknames := nicknames }).2 serverId = [] ∧
    channelPortsIn (ServerConfigureBonding e serverId portChannelId
        { bondingType := bt, portNicknames := nicknames }).2 serverId portChannelId = [] := by
  have hres := applyBondingResult_state e serverId portChannelId s pc [] [] hs hpc
  simpa [ServerConfigureBonding, hs, hpc, hbt1, hbt2, hbt3] using hres

/-- Claim C9 witness: the theorem applied to the fixture with the
unrecognized bonding type hoge. -/
theorem C9_witness :
    getServerById sampleEngine "server01" = some sampleServer ∧
    getPortChannelById sampleServer 1 = Except.ok samplePortChannel ∧
    "hoge" ≠ BondingTypeLacp ∧ "hoge" ≠ BondingTypeStatic ∧
    "hoge" ≠ BondingTypeSingle ∧
    ((ServerConfigureBonding sampleEngine "server01" 1
        { bondingType := "hoge", portNicknames := none }).1 =
      Except.ok { samplePortChannel with ports := [] } ∧
     serverPortsIn (ServerConfigureBonding sampleEngine "server01" 1
        { bondingType := "hoge", portNicknames := none }).2 "server01" = [] ∧
     channelPortsIn (ServerConfigureBonding sampleEngine "server01" 1
        { bondingType := "hoge", portNicknames := none }).2 "server01" 1 = []) :=
  ⟨rfl, rfl, by decide, by decide, by decide,
    C9_unknown_bonding_type_creates_no_ports sampleEngine "server01" 1
      sampleServer samplePortChannel "hoge" none rfl rfl
      (by decide) (by decide) (by decide)⟩

theorem assignMode_fields (port : InterfacePort) (m : String) :
    (assignMode port m).internet = port.internet ∧
    (assignMode port m).globalBandwidthMbps = port.globalBandwidthMbps ∧
    (assignMode port m).localBandwidthMbps = port.localBandwidthMbps ∧
    (assignMode port m).privateNetworks = port.privateNetworks := by
  unfold assignMode
  split_ifs <;> exact ⟨rfl, rfl, rfl, rfl⟩

theorem assignPrivateNetworksLoop_fields (e : Engine) :
    ∀ (ids : List String) (port : InterfacePort),
      ((assignPrivateNetworksLoop e port ids).2).internet = port.internet ∧
      ((assignPrivateNetworksLoop e port ids).2).globalBandwidthMbps = port.globalBandwidthMbps ∧
      ((assignPrivateNetworksLoop e port ids).2).localBandwidthMbps = port.localBandwidthMbps ∧
      ((assignPrivateNetworksLoop e port ids).2).mode = port.mode := by
  intro ids
  induction ids with
  | nil => intro port; exact ⟨rfl, rfl, rfl, rfl⟩
  | cons id rest ih =>
    intro port
    cases hpn : getPrivateNetworkById e id with
    | none =>
      simp [assignPrivateNetworksLoop, hpn]
    | some pn =>
      simp only [assignPrivateNetworksLoop, hpn]
      exact ih _

theorem assignInternet_proceed_base (e : Engine) (port : InterfacePort)
    (params : AssignNetworkParameter) (internet : Option Internet)
    (p2 : InterfacePort)
    (h : assignInternet e port params = InternetStage.proceed internet p2) :
    p2.privateNetworks = port.privateNetworks ∧
    p2.localBandwidthMbps = port.localBandwidthMbps ∧
    p2.internet = port.internet ∧
    p2.mode = port.mode := by
  unfold assignInternet at h
  cases hit : params.internetType with
  | none =>
    rw [hit] at h
    injection h with h1 h2
    subst h2
    exact ⟨rfl, rfl, rfl, rfl⟩
  | some t =>
    rw [hit] at h
    dsimp only at h
    by_cases hc : (t == AssignNetworkParameterInternetTypeCommonSubnet) = true
    · rw [if_pos hc] at h
      injection h with h1 h2
      subst h2
      exact ⟨rfl, rfl, rfl, rfl⟩
    · rw [if_neg hc] at h
      by_cases hd : (t == AssignNetworkParameterInternetTypeDedicatedSubnet) = true
      · rw [if_pos hd] at h
        cases hds : params.dedicatedSubnetId with
        | none => rw [hds] at h; exact absurd h (by simp)
        | some dsid =>
          rw [hds] at h
          dsimp only at h
          cases hsub : getDedicatedSubnetById e dsid with
          | none => rw [hsub] at h; exact absurd h (by simp)
          | some subnet =>
            rw [hsub] at h
            injection h with h1 h2
            subst h2
            exact ⟨rfl, rfl, rfl, rfl⟩
      · rw [if_neg hd] at h
        exact absurd h (by simp)

theorem ServerAssignNetwork_ok_inv (e : Engine) (serverId : String)
    (portId : Nat) (params : AssignNetworkParameter) (s : ServerData)
    (port0 p : InterfacePort)
    (hs : getServerById e serverId = some s)
    (hp : getPortById s portId = Except.ok port0)
    (hok : (ServerAssignNetwork e serverId portId params).1 = AssignOutcome.ok p) :
    ServerAssignNetwork e serverId portId params =
      (AssignOutcome.ok p, persistPort e serverId s p) ∧
    ∃ internet p2,
      assignInternet e (resetNetworkFields port0) params =
        InternetStage.proceed internet p2 ∧
      ((p = assignMode { p2 with internet := internet } params.mode ∧
        params.privateNetworkIds = none) ∨
       (∃ ids, params.privateNetworkIds = some ids ∧
        (assignPrivateNetworksLoop e
          (assignMode { p2 with internet := internet } params.mode) ids).1 = none ∧
        p = { (assignPrivateNetworksLoop e
          (assignMode { p2 with internet := internet } params.mode) ids).2 with
            localBandwidthMbps := some 1000 })) := by
  have hred : ServerAssignNetwork e serverId portId params =
      (match assignInternet e (resetNetworkFields port0) params with
       | InternetStage.panicked msg pp =>
         (AssignOutcome.panicked msg, persistPort e serverId s pp)
       | InternetStage.fail er pp =>
         (AssignOutcome.err er, persistPort e serverId s pp)
       | InternetStage.proceed internet p2 =>
         match params.privateNetworkIds with
         | none =>
           (AssignOutcome.ok (assignMode { p2 with internet := internet } params.mode),
            persistPort e serverId s (assignMode { p2 with internet := internet } params.mode))
         | some ids =>
           match (assignPrivateNetworksLoop e
               (assignMode { p2 with internet := internet } params.mode) ids).1 with
           | some er =>
             (AssignOutcome.err er, persistPort e serverId s
               (assignPrivateNetworksLoop e
                 (assignMode { p2 with internet := internet } params.mode) ids).2)
           | none =>
             (AssignOutcome.ok { (assignPrivateNetworksLoop e
                 (assignMode { p2 with internet := internet } params.mode) ids).2 with
                   localBandwidthMbps := some 1000 },
              persistPort e serverId s { (assignPrivateNetworksLoop e
                 (assignMode { p2 with internet := internet } params.mode) ids).2 with
                   localBandwidthMbps := some 1000 })) := by
    unfold ServerAssignNetwork
    rw [hs]
    dsimp only
    rw [hp]
  rw [hred] at hok
  rw [hred]
  cases hstage : assignInternet e (resetNetworkFields port0) params with
  | panicked msg pp =>
    rw [hstage] at hok
    exact absurd hok (by simp)
  | fail er pp =>
    rw [hstage] at hok
    exact absurd hok (by simp)
  | proceed internet p2 =>
    rw [hstage] at hok
    dsimp only at hok ⊢
    cases hpn : params.privateNetworkIds with
    | none =>
      rw [hpn] at hok
      dsimp only at hok ⊢
      injection hok with hpp
      subst hpp
      exact ⟨rfl, internet, p2, rfl, Or.inl ⟨rfl, rfl⟩⟩
    | some ids =>
      rw [hpn] at hok
      dsimp only at hok ⊢
      cases hr : (assignPrivateNetworksLoop e
          (assignMode { p2 with internet := internet } params.mode) ids).1 with
      | some er =>
        rw [hr] at hok
        exact absurd hok (by simp)
      | none =>
        rw [hr] at hok
        dsimp only at hok ⊢
        injection hok with hpp
        subst hpp
        exact ⟨rfl, internet, p2, rfl, Or.inr ⟨ids, rfl, hr, rfl⟩⟩

/-- Claim C6: on every successful `ServerAssignNetwork` call the port's
internet attachment, mode, private networks and both bandwidth fields were
first reset unconditionally and then repopulated only from the request:
common-subnet sets global bandwidth to exactly 100 (and the fixed shared
descriptor), dedicated-subnet sets it to exactly 500, a non-empty
private-network id list sets local bandwidth to exactly 1000 regardless of
its length, and fields the request does not mention remain reset; the
returned port is also the port stored back into the engine. -/
theorem C6_assign_network_success_fields
    (e : Engine) (serverId : String) (portId : Nat)
    (params : AssignNetworkParameter) (s : ServerData)
    (port0 p : InterfacePort)
    (hs : getServerById e serverId = some s)
    (hp : getPortById s portId = Except.ok port0)
    (hok : (ServerAssignNetwork e serverId portId params).1 = AssignOutcome.ok p) :
    (params.internetType = some AssignNetworkParameterInternetTypeCommonSubnet →
      p.internet = some commonSubnetInternet ∧ p.globalBandwidthMbps = some 100) ∧
    (params.internetType = some AssignNetworkParameterInternetTypeDedicatedSubnet →
      p.globalBandwidthMbps = some 500) ∧
    (params.internetType = none →
      p.internet = none ∧ p.globalBandwidthMbps = none) ∧
    (∀ ids, params.privateNetworkIds = some ids → ids ≠ [] →
      p.localBandwidthMbps = some 1000) ∧
    (params.privateNetworkIds = none →
      p.privateNetworks = [] ∧ p.localBandwidthMbps = none) ∧
    ServerAssignNetwork e serverId portId params =
      (AssignOutcome.ok p, persistPort e serverId s p) := by
  obtain ⟨hpair, internet, p2, hstage, hrest⟩ :=
    ServerAssignNetwork_ok_inv e serverId portId params s port0 p hs hp hok
  have hbase := assignInternet_proceed_base e (resetNetworkFields port0) params
    internet p2 hstage
  have hIG : p.internet = internet ∧ p.globalBandwidthMbps = p2.globalBandwidthMbps := by
    rcases hrest with ⟨hpeq, hnone⟩ | ⟨ids, hsome, hr, hpeq⟩
    · subst hpeq
      have hm := assignMode_fields { p2 with internet := internet } params.mode
      exact ⟨hm.1, hm.2.1⟩
    · subst hpeq
      have hl := assignPrivateNetworksLoop_fields e ids
        (assignMode { p2 with internet := internet } params.mode)
      have hm := assignMode_fields { p2 with internet := internet } params.mode
      exact ⟨hl.1.trans hm.1, hl.2.1.trans hm.2.1⟩
  refine ⟨?_, ?_, ?_, ?_, ?_, hpair⟩
  · intro hit
    unfold assignInternet at hstage
    rw [hit] at hstage
    dsimp only at hstage
    have hcc : (AssignNetworkParameterInternetTypeCommonSubnet ==
        AssignNetworkParameterInternetTypeCommonSubnet) = true := by decide
    rw [if_pos hcc] at hstage
    injection hstage with h1 h2
    constructor
    · rw [hIG.1, ← h1]
    · rw [hIG.2, ← h2]
  · intro hit
    unfold assignInternet at hstage
    rw [hit] at hstage
    dsimp only at hstage
    have hdc : ¬((AssignNetworkParameterInternetTypeDedicatedSubnet ==
        AssignNetworkParameterInternetTypeCommonSubnet) = true) := by decide
    have hdd : (AssignNetworkParameterInternetTypeDedicatedSubnet ==
        AssignNetworkParameterInternetTypeDedicatedSubnet) = true := by decide
    rw [if_neg hdc, if_pos hdd] at hstage
    cases hds : params.dedicatedSubnetId with
    | none =>
      rw [hds] at hstage
      exact absurd hstage (by simp)
    | some dsid =>
      rw [hds] at hstage
      dsimp only at hstage
      cases hsub : getDedicatedSubnetById e dsid with
      | none =>
        rw [hsub] at hstage
        exact absurd hstage (by simp)
      | some subnet =>
        rw [hsub] at hstage
        injection hstage with h1 h2
        rw [hIG.2, ← h2]
  · intro hit
    unfold assignInternet at hstage
    rw [hit] at hstage
    injection hstage with h1 h2
    constructor
    · rw [hIG.1, ← h1]
    · rw [hIG.2, ← h2]
      rfl
  · intro ids hpn hne
    rcases hrest with ⟨hpeq, hnone⟩ | ⟨ids2, hsome, hr, hpeq⟩
    · rw [hpn] at hnone
      exact absurd hnone (by simp)
    · subst hpeq
      rfl
  · intro hpn
    rcases hrest with ⟨hpeq, hnone⟩ | ⟨ids2, hsome, hr, hpeq⟩
    · subst hpeq
      have hm := assignMode_fields { p2 with internet := internet } params.mode
      constructor
      · rw [hm.2.2.2]
        exact hbase.1
      · rw [hm.2.2.1]
        exact hbase.2.1
    · rw [hpn] at hsome
      exact absurd hsome (by simp)

theorem getPortById_ok_portId (s : ServerData) (portId : Nat)
    (p : InterfacePort) (hp : getPortById s portId = Except.ok p) :
    p.portId = portId := by
  unfold getPortById at hp
  cases hfind : s.server.ports.find? (fun q => q.portId == portId) with
  | none => rw [hfind] at hp; exact absurd hp (by simp)
  | some q =>
    rw [hfind] at hp
    injection hp with h
    subst h
    have hq := List.find?_some hfind
    simpa using hq

/-- Request used by the claim C6 witness: common-subnet internet, access
mode, one private network. -/
def c6Params : AssignNetworkParameter :=
  { internetType := some AssignNetworkParameterInternetTypeCommonSubnet,
    dedicatedSubnetId := none, mode := AssignNetworkParameterModeAccess,
    privateNetworkIds := some ["net01"] }

/-- The port the claim C6 witness call returns and stores. -/
def c6Port : InterfacePort :=
  { enabled := true, nickname := "port01", portChannelId := 1, portId := 2,
    internet := some commonSubnetInternet,
    mode := some InterfacePortModeAccess,
    privateNetworks := [{ nickname := "net-nick", privateNetworkId := "net01" }],
    globalBandwidthMbps := some 100, localBandwidthMbps := some 1000 }

/-- Claim C6 witness: the theorem applied to the fixture for a successful
call requesting common-subnet internet, access mode and one private
network. -/
theorem C6_witness :
    getServerById sampleEngine "server01" = some sampleServer ∧
    getPortById sampleServer 2 = Except.ok samplePort ∧
    (ServerAssignNetwork sampleEngine "server01" 2 c6Params).1 =
      AssignOutcome.ok c6Port ∧
    (c6Port.internet = some commonSubnetInternet ∧
     c6Port.globalBandwidthMbps = some 100) ∧
    c6Port.localBandwidthMbps = some 1000 ∧
    ServerAssignNetwork sampleEngine "server01" 2 c6Params =
      (AssignOutcome.ok c6Port, persistPort sampleEngine "server01" sampleServer c6Port) := by
  have h := C6_assign_network_success_fields sampleEngine "server01" 2 c6Params
    sampleServer samplePort c6Port rfl rfl rfl
  exact ⟨rfl, rfl, rfl, h.1 rfl, h.2.2.2.1 ["net01"] rfl (by decide), h.2.2.2.2.2⟩

/-- Claim C7 counterexample: on the fixture, requesting dedicated-subnet
internet with the unknown identifier nosuch returns the invalid-request error
whose detail is the fixed fmt pointer rendering — it does not name the
identifier; indeed the call with a different unknown identifier othersubnet
returns the very same outcome, so the error cannot be naming the identifier
supplied. -/
theorem C7_counterexample :
    (ServerAssignNetwork sampleEngine "server01" 2
        { internetType := some AssignNetworkParameterInternetTypeDedicatedSubnet,
          dedicatedSubnetId := some "nosuch", mode := "",
          privateNetworkIds := none }).1 =
      AssignOutcome.err (NewError ErrorType.invalidRequest "port" "2"
        invalidDedicatedSubnetIdDetail) ∧
    invalidDedicatedSubnetIdDetail =
      "invalid dedicated subnet id: %!s(*string=0xADDR)" ∧
    (ServerAssignNetwork sampleEngine "server01" 2
        { internetType := some AssignNetworkParameterInternetTypeDedicatedSubnet,
          dedicatedSubnetId := some "nosuch", mode := "",
          privateNetworkIds := none }).1 =
    (ServerAssignNetwork sampleEngine "server01" 2
        { internetType := some AssignNetworkParameterInternetTypeDedicatedSubnet,
          dedicatedSubnetId := some "othersubnet", mode := "",
          privateNetworkIds := none }).1 := by
  refine ⟨rfl, rfl, rfl⟩

/-- Claim C7 (amended; spec-modelled port lookup semantics, §4.1): requesting
dedicated-subnet internet with an identifier absent from the catalog returns
an invalid-request error, but its formatted detail is the fmt rendering of
the `*string` pointer — one fixed string, the same for every identifier,
never containing the identifier text; and the stored port is left with its
network fields already reset but not yet repopulated — the unconditional
reset persists despite the error, as a subsequent port read observes. -/
theorem C7_invalid_dedicated_subnet_leaves_port_reset
    (e : Engine) (serverId : String) (portId : Nat) (s : ServerData)
    (port0 : InterfacePort) (dsid : String) (params : AssignNetworkParameter)
    (hs : getServerById e serverId = some s)
    (hp : getPortById s portId = Except.ok port0)
    (hit : params.internetType = some AssignNetworkParameterInternetTypeDedicatedSubnet)
    (hds : params.dedicatedSubnetId = some dsid)
    (hmiss : getDedicatedSubnetById e dsid = none) :
    ServerAssignNetwork e serverId portId params =
      (AssignOutcome.err (NewError ErrorType.invalidRequest "port"
        (toString port0.portId) invalidDedicatedSubnetIdDetail),
       persistPort e serverId s (resetNetworkFields port0)) ∧
    ReadServerPort (ServerAssignNetwork e serverId portId params).2 serverId portId =
      Except.ok (resetNetworkFields port0) := by
  have hstage : assignInternet e (resetNetworkFields port0) params =
      InternetStage.fail (NewError ErrorType.invalidRequest "port"
        (toString port0.portId) invalidDedicatedSubnetIdDetail)
        (resetNetworkFields port0) := by
    unfold assignInternet
    rw [hit]
    dsimp only
    have hdc : ¬((AssignNetworkParameterInternetTypeDedicatedSubnet ==
        AssignNetworkParameterInternetTypeCommonSubnet) = true) := by decide
    have hdd : (AssignNetworkParameterInternetTypeDedicatedSubnet ==
        AssignNetworkParameterInternetTypeDedicatedSubnet) = true := by decide
    rw [if_neg hdc, if_pos hdd, hds]
    dsimp only
    rw [hmiss]
    rfl
  have hred : ServerAssignNetwork e serverId portId params =
      (AssignOutcome.err (NewError ErrorType.invalidRequest "port"
        (toString port0.portId) invalidDedicatedSubnetIdDetail),
       persistPort e serverId s (resetNetworkFields port0)) := by
    unfold ServerAssignNetwork
    rw [hs]
    dsimp only
    rw [hp]
    dsimp only
    rw [hstage]
  refine ⟨hred, ?_⟩
  rw [hred]
  unfold ReadServerPort persistPort
  rw [getServerById_updateServer e serverId s
    (updatePort s (resetNetworkFields port0)) hs rfl]
  exact getPortById_updatePort s portId port0 (resetNetworkFields port0) hp rfl

/-- Claim C7 witness: the amended theorem applied to the fixture with the
unknown dedicated-subnet identifier nosuch. -/
theorem C7_witness :
    getServerById sampleEngine "server01" = some sampleServer ∧
    getPortById sampleServer 2 = Except.ok samplePort ∧
    getDedicatedSubnetById sampleEngine "nosuch" = none ∧
    (ServerAssignNetwork sampleEngine "server01" 2
        { internetType := some AssignNetworkParameterInternetTypeDedicatedSubnet,
          dedicatedSubnetId := some "nosuch", mode := "",
          privateNetworkIds := none } =
      (AssignOutcome.err (NewError ErrorType.invalidRequest "port" "2"
        invalidDedicatedSubnetIdDetail),
       persistPort sampleEngine "server01" sampleServer (resetNetworkFields samplePort)) ∧
     ReadServerPort (ServerAssignNetwork sampleEngine "server01" 2
        { internetType := some AssignNetworkParameterInternetTypeDedicatedSubnet,
          dedicatedSubnetId := some "nosuch", mode := "",
          privateNetworkIds := none }).2 "server01" 2 =
      Except.ok (resetNetworkFields samplePort)) :=
  ⟨rfl, rfl, rfl,
    C7_invalid_dedicated_subnet_leaves_port_reset sampleEngine "server01" 2
      sampleServer samplePort "nosuch" _ rfl rfl rfl rfl rfl⟩

theorem runTask_powerControl (e : Engine) (serverId ps cs : String)
    (s : ServerData) (hs : getServerById e serverId = some s) :
    (runTask (BgTask.powerControl serverId ps cs) e).1 =
      { updateServer e serverId
          { s with
            powerStatus := some e.psNext
            server := { s.server with
                        cachedPowerStatus := some { status := cs, stored := e.clock } } } with
        psHeap := fun a => if a == e.psNext then { status := ps } else e.psHeap a
        psNext := e.psNext + 1
        clock := e.clock + 1 } := by
  simp only [runTask, startUpdateAction, taskBody]
  rw [hs]

/-- Claim C8 counterexample: on the fixture (power status on), power control
with the unrecognized operation hoge succeeds and still launches the
background task — carrying the Go zero-value statuses — and running that task
overwrites the power status with the empty status: the server's power status
changes from on to the empty value, contradicting the claim that any other
operation value yields no state change. -/
theorem C8_counterexample :
    (ServerPowerControl sampleEngine "server01" { operation := "hoge" }).1 =
      Except.ok () ∧
    readPowerStatusValue sampleEngine "server01" =
      Except.ok (some { status := "on" }) ∧
    (ServerPowerControl sampleEngine "server01" { operation := "hoge" }).2.pending =
      [BgTask.powerControl "server01" "" ""] ∧
    readPowerStatusValue
        (runTask (BgTask.powerControl "server01" "" "")
          (ServerPowerControl sampleEngine "server01" { operation := "hoge" }).2).1
        "server01" =
      Except.ok (some { status := "" }) := by
  refine ⟨rfl, rfl, rfl, rfl⟩

/-- Claim C8 (amended): on an unlocked existing server, power control always
returns success and launches the background task; operations on and reset map
it to the powered-on statuses, soft and off to the powered-off statuses, and
any other operation value launches the task with the zero-value (empty)
statuses, which the task then writes — overwriting the power status and
cached power status rather than leaving them unchanged.  Running the task
allocates a fresh power-status record with the mapped status and stores the
cached status stamped with the clock. -/
theorem C8_power_control_operation_mapping
    (e : Engine) (serverId : String) (s : ServerData) (op : String)
    (hs : getServerById e serverId = some s)
    (hlock : s.server.lockStatus = none) :
    (ServerPowerControl e serverId { operation := op }).1 = Except.ok () ∧
    ((op = "on" ∨ op = "reset") →
      (ServerPowerControl e serverId { operation := op }).2.pending =
        e.pending ++ [BgTask.powerControl serverId ServerPowerStatusStatusOn
          CachedPowerStatusStatusOn]) ∧
    ((op = "soft" ∨ op = "off") →
      (ServerPowerControl e serverId { operation := op }).2.pending =
        e.pending ++ [BgTask.powerControl serverId ServerPowerStatusStatusOff
          CachedPowerStatusStatusOff]) ∧
    (op ≠ "on" → op ≠ "reset" → op ≠ "soft" → op ≠ "off" →
      (ServerPowerControl e serverId { operation := op }).2.pending =
        e.pending ++ [BgTask.powerControl serverId "" ""]) ∧
    (∀ ps cs (e2 : Engine) (s2 : ServerData),
      getServerById e2 serverId = some s2 →
      readPowerStatusValue (runTask (BgTask.powerControl serverId ps cs) e2).1 serverId =
        Except.ok (some { status := ps }) ∧
      getServerById (runTask (BgTask.powerControl serverId ps cs) e2).1 serverId =
        some { s2 with
          powerStatus := some e2.psNext
          server := { s2.server with
                      cachedPowerStatus := some { status := cs, stored := e2.clock } } }) := by
  refine ⟨?_, ?_, ?_, ?_, ?_⟩
  · simp [ServerPowerControl, hs, hlock]
  · intro hop
    rcases hop with h | h <;> subst h <;>
      simp [ServerPowerControl, hs, hlock, startServerPowerControl]
  · intro hop
    rcases hop with h | h <;> subst h <;>
      simp [ServerPowerControl, hs, hlock, startServerPowerControl]
  · intro h1 h2 h3 h4
    simp [ServerPowerControl, hs, hlock, startServerPowerControl, h1, h2, h3, h4]
  · intro ps cs e2 s2 hs2
    have hrt := runTask_powerControl e2 serverId ps cs s2 hs2
    have hns : getServerById (runTask (BgTask.powerControl serverId ps cs) e2).1 serverId =
        some { s2 with
          powerStatus := some e2.psNext
          server := { s2.server with
                      cachedPowerStatus := some { status := cs, stored := e2.clock } } } := by
      rw [hrt]
      exact getServerById_updateServer e2 serverId s2 _ hs2 rfl
    refine ⟨?_, hns⟩
    unfold readPowerStatusValue ReadServerPowerStatus
    rw [hns]
    dsimp only
    rw [hrt]
    simp

/-- Claim C8 witness: the amended theorem applied to the fixture for the
unrecognized operation hoge, then running the launched zero-value task. -/
theorem C8_witness :
    getServerById sampleEngine "server01" = some sampleServer ∧
    sampleServer.server.lockStatus = none ∧
    (ServerPowerControl sampleEngine "server01" { operation := "hoge" }).1 =
      Except.ok () ∧
    (ServerPowerControl sampleEngine "server01" { operation := "hoge" }).2.pending =
      sampleEngine.pending ++ [BgTask.powerControl "server01" "" ""] ∧
    readPowerStatusValue
        (runTask (BgTask.powerControl "server01" "" "")
          (ServerPowerControl sampleEngine "server01" { operation := "hoge" }).2).1
        "server01" =
      Except.ok (some { status := "" }) := by
  have h := C8_power_control_operation_mapping sampleEngine "server01"
    sampleServer "hoge" rfl rfl
  refine ⟨rfl, rfl, h.1, h.2.2.2.1 (by decide) (by decide) (by decide) (by decide), ?_⟩
  exact (h.2.2.2.2 "" ""
    (ServerPowerControl sampleEngine "server01" { operation := "hoge" }).2
    sampleServer rfl).1

/-- Claim C10: requesting dedicated-subnet internet while supplying no
dedicated-subnet identifier makes the code dereference the absent identifier
and panic (a nil-pointer dereference) instead of returning an invalid-request
error: on the fixture the call's outcome is the panic, and it is not an error
result for any error value. -/
theorem C10_missing_dedicated_subnet_id_panics :
    (ServerAssignNetwork sampleEngine "server01" 2
        { internetType := some AssignNetworkParameterInternetTypeDedicatedSubnet,
          dedicatedSubnetId := none, mode := "", privateNetworkIds := none }).1 =
      AssignOutcome.panicked
        "runtime error: invalid memory address or nil pointer dereference" ∧
    ∀ er, (ServerAssignNetwork sampleEngine "server01" 2
        { internetType := some AssignNetworkParameterInternetTypeDedicatedSubnet,
          dedicatedSubnetId := none, mode := "", privateNetworkIds := none }).1 ≠
      AssignOutcome.err er :=
  ⟨rfl, fun _ h => AssignOutcome.noConfusion h⟩

end PhyFake
